import Mathlib

/-!
Verification of the avr-libc build script (src/build.rs).

The script is a build-time orchestrator: it decides whether the native
avr-libc must be bootstrapped/configured/compiled for the current target,
selects which headers are eligible for binding generation, and configures
the external binding generator.

Shallow embedding conventions:
- A filesystem path (Rust Path/PathBuf) is modelled as its list of
  components (LibPath := List String).  Rust PathBuf.join with a relative
  string such as "avr/boot.h" appends the slash-separated components, and
  PathBuf equality is component-wise equality, so join is list append of
  the splitOn "/" components and equality is list equality.
- cfg!(arch = "avr") is a boolean parameter archAvr; the external
  avr_mcu chip lookup is a parameter chipLookup : Option String.
- A Rust panic (via expect or unwrap) is an error value: fallible
  functions return Except BuildError or an explicit error component.
- External process invocations (sh bootstrap, sh configure, make) are
  modelled by the Proc type; their exit statuses are a parameter
  exit : Proc -> Nat (0 = success, as the script checks status().success()).
- The filesystem seen by the header collector is a parameter
  FS.readDir : LibPath -> Option (List (String, Bool)) giving, for each
  readable directory, its ordered direct entries as (file name, is_file);
  an unreadable directory is none (fs.read_dir(...).unwrap() panics).
-/

set_option autoImplicit false

namespace AvrLibc

/-- Fatal error taxonomy of the build script (every error is a panic that
aborts the run). -/
inductive BuildError where
  | cannotDetermineMcu
  | bootstrapFailed
  | configureFailed
  | compileFailed
  | unsupportedMcu (name : String)
  | headerDirMissing
  deriving DecidableEq, Repr

/-- A filesystem path, as its list of components. -/
abbrev LibPath := List String

/-- Split a character list at every occurrence of the separator
(structural version of string splitting, so that the kernel can evaluate
it on literals). -/
def splitOnChar (sep : Char) : List Char → List (List Char)
  | [] => [[]]
  | c :: cs =>
    let r := splitOnChar sep cs
    if c = sep then [] :: r
    else
      match r with
      | [] => [[c]]
      | h :: t => (c :: h) :: t

/-- Rust Path::join with a (relative) string: append its slash-separated
components. -/
def pjoin (p : LibPath) (s : String) : LibPath :=
  p ++ (splitOnChar (Char.ofNat 47) s.data).map String.mk

/-- Rust str::starts_with on strings, as a character-list prefix test. -/
def starts_with (s pre : String) : Bool :=
  pre.data.isPrefixOf s.data

/-- Break a character list at its last dot: some (before, after) when a
dot occurs, none otherwise. -/
def breakAtLastDot : List Char → Option (List Char × List Char)
  | [] => none
  | c :: cs =>
    match breakAtLastDot cs with
    | some (pre, post) => some (c :: pre, post)
    | none => if c = Char.ofNat 46 then some ([], cs) else none

/-- Split a file name into (stem, extension) following Rust
Path::file_stem / Path::extension: the split is at the final dot, except
that a name whose only dot is a leading one (such as ".gitignore") has no
extension. -/
def splitExt (name : String) : String × Option String :=
  match breakAtLastDot name.data with
  | none => (name, none)
  | some ([], _) => (name, none)
  | some (pre, post) => (String.mk pre, some (String.mk post))

/-- Rust Path::file_stem of a file name. -/
def file_stem (name : String) : String := (splitExt name).1

/-- Rust Path::extension of a file name. -/
def extOf (name : String) : Option String := (splitExt name).2

/-- Rust Path::file_stem of a whole path: the stem of its last component
(none for an empty path, which has no file name). -/
def path_file_stem (p : LibPath) : Option String :=
  (List.getLast? p).map file_stem

/-- HEADER_BLACKLIST from src/build.rs: headers which cannot be used from
Rust (deprecated headers superseded by newer ones, headers requiring
MCU-specific constants, headers relying on AVR-GCC specific optimisations
or preprocessor magic). -/
def HEADER_BLACKLIST : List String :=
  ["avr/crc16.h", "avr/parity.h", "avr/delay.h",
   "avr/signal.h",
   "avr/wdt.h",
   "stdfix-avrlibc.h",
   "util/delay.h", "util/delay_basic.h",
   "util/setbaud.h"]

/-- DEVICE_SPECIFIC_HEADERS from src/build.rs: headers eligible only when
a microcontroller is known. -/
def DEVICE_SPECIFIC_HEADERS : List String :=
  ["avr/boot.h",
   "avr/sleep.h",
   "util/crc16.h"]

/-- mcu_name(): on the embedded architecture, query the external chip
lookup (its failure is a fatal .expect panic); elsewhere, none. -/
def mcu_name (archAvr : Bool) (chipLookup : Option String) :
    Except BuildError (Option String) :=
  if archAvr then
    match chipLookup with
    | some n => .ok (some n)
    | none => .error .cannotDetermineMcu
  else
    .ok none

/-- is_building_documentation(): assume that if we are not targeting avr,
we are probably generating docs. -/
def is_building_documentation (archAvr : Bool) : Bool :=
  if archAvr then false else true

/-- is_header_in_list: whether the path equals the libc include root
joined with one of the listed library-relative names. -/
def is_header_in_list (path : LibPath) (libc_path : LibPath)
    (list : List String) : Bool :=
  let include_path := libc_path ++ ["include"]
  list.any (fun header => pjoin include_path header == path)

/-- is_header_device_specific from src/build.rs. -/
def is_header_device_specific (path : LibPath) (libc_path : LibPath) : Bool :=
  is_header_in_list path libc_path DEVICE_SPECIFIC_HEADERS

/-- is_header_blacklisted from src/build.rs.  mcuName is the value of
mcu_name() observed by the filter (none off the embedded architecture). -/
def is_header_blacklisted (mcuName : Option String) (path : LibPath)
    (libc_path : LibPath) : Bool :=
  match path_file_stem path with
  | some stem =>
    if starts_with stem "io" then
      true
    else
      is_header_in_list path libc_path HEADER_BLACKLIST ||
        (mcuName.isNone && is_header_device_specific path libc_path)
  | none =>
    is_header_in_list path libc_path HEADER_BLACKLIST ||
      (mcuName.isNone && is_header_device_specific path libc_path)

/-- The eligibility predicate of the spec: a header is eligible iff it is not
blacklisted. -/
def is_eligible (mcuName : Option String) (path : LibPath)
    (libc_path : LibPath) : Bool :=
  !is_header_blacklisted mcuName path libc_path

/-- The three exclusion rules of the filter, as separate predicates.
Rule 1: a header whose file stem begins with "io" is excluded. -/
def io_rule (path : LibPath) : Bool :=
  match path_file_stem path with
  | some stem => starts_with stem "io"
  | none => false

/-- Rule 2: a header on the static deny list is excluded. -/
def deny_rule (path : LibPath) (libc_path : LibPath) : Bool :=
  is_header_in_list path libc_path HEADER_BLACKLIST

/-- Rule 3: a device-specific header is excluded when no microcontroller
is resolved. -/
def device_rule (mcuName : Option String) (path : LibPath)
    (libc_path : LibPath) : Bool :=
  mcuName.isNone && is_header_device_specific path libc_path

/-- The rules of the filter, evaluated at one header. -/
def filter_rules (mcuName : Option String) (path : LibPath)
    (libc_path : LibPath) : List Bool :=
  [io_rule path, deny_rule path libc_path, device_rule mcuName path libc_path]

/-! ## Native build driver -/

/-- The external process invocations the build driver can make: the shell
bootstrap script, the configure script (with --build=<host>, --host=avr
and CC=avr-gcc, working directory the libc source root), and make run in
the include directory and in the architecture library directory. -/
inductive Proc where
  | shBootstrap
  | shConfigure
  | makeInclude
  | makeArch
  deriving DecidableEq, Repr

/-- bootstrap(): run sh bootstrap in the libc dir; a nonzero exit status
is a fatal panic. -/
def bootstrap (exit : Proc → Nat) : Except BuildError Unit :=
  if exit .shBootstrap = 0 then .ok () else .error .bootstrapFailed

/-- configure(): run sh configure in the libc dir; a nonzero exit status
is a fatal panic. -/
def configure (exit : Proc → Nat) : Except BuildError Unit :=
  if exit .shConfigure = 0 then .ok () else .error .configureFailed

/-- make(dir): run make in the given directory; a nonzero exit status is
a fatal panic. -/
def make (p : Proc) (exit : Proc → Nat) : Except BuildError Unit :=
  if exit p = 0 then .ok () else .error .compileFailed

/-- The native build portion of main() (src/build.rs lines 60-67): when
the static archive is absent and this is not a documentation build, run
bootstrap, configure, make include_dir, make arch_dir, each stage aborting
the run on failure.  Returns the ordered trace of process invocations
performed and the fatal error, if any. -/
def native_build (staticLibExists : Bool) (archAvr : Bool)
    (exit : Proc → Nat) : List Proc × Option BuildError :=
  if !staticLibExists && !(is_building_documentation archAvr) then
    match bootstrap exit with
    | .error e => ([.shBootstrap], some e)
    | .ok _ =>
      match configure exit with
      | .error e => ([.shBootstrap, .shConfigure], some e)
      | .ok _ =>
        match make .makeInclude exit with
        | .error e => ([.shBootstrap, .shConfigure, .makeInclude], some e)
        | .ok _ =>
          match make .makeArch exit with
          | .error e =>
            ([.shBootstrap, .shConfigure, .makeInclude, .makeArch], some e)
          | .ok _ =>
            ([.shBootstrap, .shConfigure, .makeInclude, .makeArch], none)
  else
    ([], none)

/-! ## Header collector -/

/-- The filesystem seen by the collector: for each readable directory, its
ordered direct entries as (file name, is_file); none for a directory that
cannot be read (fs::read_dir(...).unwrap() panics there). -/
structure FS where
  readDir : LibPath → Option (List (String × Bool))

/-- headers_inside(dir, libc_path): list the direct entries of dir, keep
the files whose extension is "h" and that are not blacklisted, in entry
order.  An unreadable directory is a fatal panic (.unwrap()). -/
def headers_inside (fs : FS) (mcuName : Option String) (dir : LibPath)
    (libc_path : LibPath) : Except BuildError (List LibPath) :=
  match fs.readDir dir with
  | none => .error .headerDirMissing
  | some entries =>
    .ok <| entries.foldl (fun headers entry =>
      let path := dir ++ [entry.1]
      if entry.2 then
        match extOf entry.1 with
        | some ext =>
          if ext = "h" then
            if !is_header_blacklisted mcuName path libc_path then
              headers ++ [path]
            else headers
          else headers
        | none => headers
      else headers) []

/-- base_headers(libc_dir): collect headers from the include root and its
util, sys and avr subdirectories, in that order. -/
def base_headers (fs : FS) (mcuName : Option String) (libc_dir : LibPath) :
    Except BuildError (List LibPath) :=
  let include_dir := libc_dir ++ ["include"]
  match headers_inside fs mcuName include_dir libc_dir with
  | .error e => .error e
  | .ok a =>
    match headers_inside fs mcuName (include_dir ++ ["util"]) libc_dir with
    | .error e => .error e
    | .ok b =>
      match headers_inside fs mcuName (include_dir ++ ["sys"]) libc_dir with
      | .error e => .error e
      | .ok c =>
        match headers_inside fs mcuName (include_dir ++ ["avr"]) libc_dir with
        | .error e => .error e
        | .ok d => .ok (a ++ b ++ c ++ d)

/-- The four directories the collector visits, in order. -/
def collector_dirs (libc_dir : LibPath) : List LibPath :=
  let include_root := libc_dir ++ ["include"]
  [include_root, include_root ++ ["util"], include_root ++ ["sys"],
   include_root ++ ["avr"]]

/-- The survivors of one directory, per the spec: the direct file entries
whose extension is exactly "h" and that pass the eligibility filter, in
entry order. -/
def spec_survivors (mcuName : Option String) (libc_dir : LibPath)
    (d : LibPath) (entries : List (String × Bool)) : List LibPath :=
  (entries.filter (fun e =>
      e.2 && (extOf e.1 == some "h")
        && is_eligible mcuName (d ++ [e.1]) libc_dir)).map
    (fun e => d ++ [e.1])

/-- Modelled from the spec (section 4.3 Header Collector), as the
comparison point for the collector refinement: visit the given
directories in order; for each, append its survivors; a non-existent
directory is a hard error. -/
def spec_visit (fs : FS) (mcuName : Option String) (libc_dir : LibPath) :
    List LibPath → Except BuildError (List LibPath)
  | [] => .ok []
  | d :: ds =>
    match fs.readDir d with
    | none => .error .headerDirMissing
    | some entries =>
      match spec_visit fs mcuName libc_dir ds with
      | .error e => .error e
      | .ok rest => .ok (spec_survivors mcuName libc_dir d entries ++ rest)

/-- Modelled from the spec (section 4.3 Header Collector): walk exactly
the four directories include_root, include_root/util, include_root/sys,
include_root/avr, in that fixed order, appending the survivors of
each directory. -/
def collect_spec (fs : FS) (mcuName : Option String) (libc_dir : LibPath) :
    Except BuildError (List LibPath) :=
  spec_visit fs mcuName libc_dir (collector_dirs libc_dir)

/-! ## Binding generator adapter -/

/-- The static microcontroller-name to preprocessor-define table inside
mcu_define_name (an unlisted name is a fatal panic). -/
def define_lookup (name : String) : Option String :=
  if name = "atmega328" then some "__AVR_ATmega328__"
  else if name = "atmega328p" then some "__AVR_ATmega328P__"
  else none

/-- mcu_define_name(): map the resolved microcontroller name through the
static table; none when no microcontroller is resolved; an unsupported
name is a fatal panic. -/
def mcu_define_name (mcuName : Option String) :
    Except BuildError (Option String) :=
  match mcuName with
  | none => .ok none
  | some name =>
    match define_lookup name with
    | some d => .ok (some d)
    | none => .error (.unsupportedMcu name)

/-- The bindgen builder configuration assembled by generate_bindings
(headers kept as component paths). -/
structure BindgenBuilder where
  useCore : Bool
  ctypesPrefix : String
  clangArgs : List String
  headers : List LibPath
  deriving DecidableEq, Repr

/-- generate_bindings(libc_dir): configure the builder (core types, the
rust_ctypes prefix, the include path and freestanding clang args), add the
-D define for the resolved microcontroller when there is one, then
register every collected header in collector order.  Returns the final
builder configuration, or the fatal error raised on the way. -/
def generate_bindings (fs : FS) (mcuName : Option String)
    (libc_dir : LibPath) : Except BuildError BindgenBuilder :=
  let builder : BindgenBuilder :=
    { useCore := true
      ctypesPrefix := "::rust_ctypes"
      clangArgs := ["-Iavr-libc/include", "-ffreestanding"]
      headers := [] }
  match mcu_define_name mcuName with
  | .error e => .error e
  | .ok defineName =>
    let builder :=
      match defineName with
      | some d => { builder with clangArgs := builder.clangArgs ++ ["-D" ++ d] }
      | none => builder
    match base_headers fs mcuName libc_dir with
    | .error e => .error e
    | .ok hs => .ok { builder with headers := hs }

/-- An empty but fully readable filesystem, used to instantiate theorems
at concrete inputs. -/
def emptyFS : FS := ⟨fun _ => some []⟩

/-- Whether a fallible computation succeeded. -/
def exceptOk {ε α : Type} : Except ε α → Bool
  | .ok _ => true
  | .error _ => false

/-! ## Helper lemmas -/

theorem pjoin_eval (p : LibPath) (s : String) (l : List String)
    (h : (splitOnChar (Char.ofNat 47) s.data).map String.mk = l) :
    pjoin p s = p ++ l := by
  unfold pjoin
  rw [h]

theorem path_file_stem_append (p : LibPath) (l : List String) (hl : l ≠ []) :
    path_file_stem (p ++ l) = path_file_stem l := by
  unfold path_file_stem
  rw [List.getLast?_append_of_ne_nil _ hl]

theorem is_header_in_list_true_iff (path libc : LibPath) (list : List String) :
    is_header_in_list path libc list = true ↔
      ∃ s ∈ list, path = pjoin (libc ++ ["include"]) s := by
  unfold is_header_in_list
  simp only [List.any_eq_true, beq_iff_eq]
  constructor
  · rintro ⟨s, hs, heq⟩
    exact ⟨s, hs, heq.symm⟩
  · rintro ⟨s, hs, heq⟩
    exact ⟨s, hs, heq.symm⟩

theorem is_header_in_list_of_mem (libc : LibPath) (s : String)
    (list : List String) (hs : s ∈ list) :
    is_header_in_list (pjoin (libc ++ ["include"]) s) libc list = true :=
  (is_header_in_list_true_iff _ _ _).mpr ⟨s, hs, rfl⟩

theorem is_header_in_list_false (libc : LibPath) (tail : List String)
    (list : List String)
    (h : ∀ s ∈ list, (splitOnChar (Char.ofNat 47) s.data).map String.mk ≠ tail) :
    is_header_in_list (libc ++ ["include"] ++ tail) libc list = false := by
  rw [Bool.eq_false_iff]
  intro htrue
  obtain ⟨s, hs, heq⟩ := (is_header_in_list_true_iff _ _ _).mp htrue
  apply h s hs
  unfold pjoin at heq
  exact (List.append_cancel_left heq).symm

theorem any_id_eq_of_perm {l1 l2 : List Bool} (hp : l1.Perm l2) :
    l1.any id = l2.any id := by
  cases h : l2.any id with
  | true =>
    obtain ⟨x, hx, hpx⟩ := List.any_eq_true.mp h
    exact List.any_eq_true.mpr ⟨x, hp.mem_iff.mpr hx, hpx⟩
  | false =>
    rw [List.any_eq_false] at h ⊢
    intro x hx
    exact h x (hp.mem_iff.mp hx)

theorem blacklisted_eq_any_rules (mcu : Option String) (path libc : LibPath) :
    is_header_blacklisted mcu path libc = (filter_rules mcu path libc).any id := by
  unfold filter_rules io_rule deny_rule device_rule
  cases h : path_file_stem path with
  | none => simp [is_header_blacklisted, h]
  | some stem =>
    by_cases hio : starts_with stem "io" = true
    · simp [is_header_blacklisted, h, hio]
    · simp only [Bool.not_eq_true] at hio
      simp [is_header_blacklisted, h, hio, Bool.or_assoc]

theorem device_specific_case (libc : LibPath) (m s : String)
    (tail : List String) (stem : String)
    (hcomp : (splitOnChar (Char.ofNat 47) s.data).map String.mk = tail)
    (htail : tail ≠ [])
    (hstem : path_file_stem tail = some stem)
    (hio : starts_with stem "io" = false)
    (hdeny : ∀ x ∈ HEADER_BLACKLIST,
      (splitOnChar (Char.ofNat 47) x.data).map String.mk ≠ tail)
    (hmem : s ∈ DEVICE_SPECIFIC_HEADERS) :
    is_header_blacklisted none (pjoin (libc ++ ["include"]) s) libc = true ∧
    is_header_blacklisted (some m) (pjoin (libc ++ ["include"]) s) libc = false := by
  have hmem2 := is_header_in_list_of_mem libc s DEVICE_SPECIFIC_HEADERS hmem
  have hdeny2 := is_header_in_list_false libc tail HEADER_BLACKLIST hdeny
  rw [pjoin_eval _ _ tail hcomp] at hmem2 ⊢
  have hstem2 : path_file_stem (libc ++ ["include"] ++ tail) = some stem := by
    rw [path_file_stem_append _ _ htail]
    exact hstem
  simp only [List.append_assoc, List.cons_append, List.nil_append]
    at hmem2 hdeny2 hstem2 ⊢
  constructor <;>
    simp [is_header_blacklisted, hstem2, hio, hdeny2,
      is_header_device_specific, hmem2]

theorem headers_inside_fold (mcu : Option String) (dir libc : LibPath)
    (entries : List (String × Bool)) (acc : List LibPath) :
    entries.foldl (fun headers entry =>
        let path := dir ++ [entry.1]
        if entry.2 then
          match extOf entry.1 with
          | some ext =>
            if ext = "h" then
              if !is_header_blacklisted mcu path libc then headers ++ [path]
              else headers
            else headers
          | none => headers
        else headers) acc
      = acc ++ spec_survivors mcu libc dir entries := by
  induction entries generalizing acc with
  | nil => simp [spec_survivors]
  | cons e es ih =>
    rw [List.foldl_cons, ih]
    simp only [spec_survivors, List.filter_cons]
    by_cases h2 : e.2
    · cases hext : extOf e.1 with
      | none => simp [h2, hext]
      | some ext =>
        by_cases hh : ext = "h"
        · by_cases hb : is_header_blacklisted mcu (dir ++ [e.1]) libc
          · simp [h2, hext, hh, hb, is_eligible]
          · simp [h2, hext, hh, hb, is_eligible]
        · simp [h2, hext, hh]
    · simp [h2]

theorem headers_inside_eq (fs : FS) (mcu : Option String) (dir libc : LibPath) :
    headers_inside fs mcu dir libc =
      match fs.readDir dir with
      | none => .error .headerDirMissing
      | some entries => .ok (spec_survivors mcu libc dir entries) := by
  unfold headers_inside
  cases fs.readDir dir with
  | none => rfl
  | some entries =>
    have h := headers_inside_fold mcu dir libc entries []
    rw [List.nil_append] at h
    exact congrArg Except.ok h

/-! ## Claim theorems -/

/-- C9: whenever a microcontroller name is resolved (mcu_name returns
some), the build targets the embedded architecture and the run is not
classified as a documentation build. -/
theorem mcu_some_implies_embedded (archAvr : Bool) (chipLookup : Option String)
    (n : String) (h : mcu_name archAvr chipLookup = .ok (some n)) :
    archAvr = true ∧ is_building_documentation archAvr = false := by
  cases archAvr with
  | false =>
    simp [mcu_name] at h
  | true =>
    exact ⟨rfl, rfl⟩

/-- Witness for C9: on the embedded architecture with a successful chip
lookup, mcu_name resolves and the run is not a documentation build. -/
theorem mcu_some_implies_embedded_witness :
    mcu_name true (some "atmega328") = .ok (some "atmega328") ∧
      (true = true ∧ is_building_documentation true = false) :=
  ⟨rfl, mcu_some_implies_embedded true (some "atmega328") "atmega328" rfl⟩

/-- C1: the native build driver performs zero process invocations iff the
static archive exists or the run is a documentation build; otherwise the
stages are invoked, starting with bootstrap, and a fully successful run
invokes all four stages. -/
theorem native_build_guard (s a : Bool) (e : Proc → Nat) :
    ((native_build s a e).1 = [] ↔ s = true ∨ is_building_documentation a = true) ∧
    (s = false → is_building_documentation a = false →
      Proc.shBootstrap ∈ (native_build s a e).1 ∧
      ((∀ p, e p = 0) → (native_build s a e).1 =
        [.shBootstrap, .shConfigure, .makeInclude, .makeArch])) := by
  cases s with
  | true => simp [native_build]
  | false =>
    cases a with
    | false => simp [native_build, is_building_documentation]
    | true =>
      constructor
      · simp only [is_building_documentation, native_build, bootstrap,
          configure, make, Bool.not_false, Bool.and_self, if_true]
        constructor
        · intro h
          by_cases h1 : e .shBootstrap = 0 <;>
            by_cases h2 : e .shConfigure = 0 <;>
            by_cases h3 : e .makeInclude = 0 <;>
            by_cases h4 : e .makeArch = 0 <;>
            simp [h1, h2, h3, h4] at h
        · rintro (h | h) <;> simp at h
      · intro _ _
        constructor
        · simp only [is_building_documentation, native_build, bootstrap,
            configure, make, Bool.not_false, Bool.and_self, if_true]
          by_cases h1 : e .shBootstrap = 0 <;>
            by_cases h2 : e .shConfigure = 0 <;>
            by_cases h3 : e .makeInclude = 0 <;>
            by_cases h4 : e .makeArch = 0 <;>
            simp [h1, h2, h3, h4]
        · intro hz
          simp [native_build, bootstrap, configure, make,
            is_building_documentation, hz]

/-- Witness for C1 at concrete inputs: archive absent, embedded target,
all stages succeeding. -/
theorem native_build_guard_witness :
    ((native_build false true (fun _ => 0)).1 = [] ↔
        false = true ∨ is_building_documentation true = true) ∧
    (false = false → is_building_documentation true = false →
      Proc.shBootstrap ∈ (native_build false true (fun _ => 0)).1 ∧
      ((∀ p, (fun _ : Proc => 0) p = 0) → (native_build false true (fun _ => 0)).1 =
        [.shBootstrap, .shConfigure, .makeInclude, .makeArch])) :=
  native_build_guard false true (fun _ => 0)

/-- C5: when the native build runs (archive absent, embedded target), the
stages execute strictly in the order bootstrap, configure, make of the
include tree, make of the architecture directory; the trace and the fatal
outcome are fully determined by the first failing stage, and no later
stage runs after a failure. -/
theorem native_build_sequencing (s a : Bool) (e : Proc → Nat)
    (hs : s = false) (ha : is_building_documentation a = false) :
    (e .shBootstrap ≠ 0 →
      native_build s a e = ([.shBootstrap], some .bootstrapFailed)) ∧
    (e .shBootstrap = 0 → e .shConfigure ≠ 0 →
      native_build s a e = ([.shBootstrap, .shConfigure], some .configureFailed)) ∧
    (e .shBootstrap = 0 → e .shConfigure = 0 → e .makeInclude ≠ 0 →
      native_build s a e =
        ([.shBootstrap, .shConfigure, .makeInclude], some .compileFailed)) ∧
    (e .shBootstrap = 0 → e .shConfigure = 0 → e .makeInclude = 0 →
      e .makeArch ≠ 0 →
      native_build s a e =
        ([.shBootstrap, .shConfigure, .makeInclude, .makeArch],
          some .compileFailed)) ∧
    (e .shBootstrap = 0 → e .shConfigure = 0 → e .makeInclude = 0 →
      e .makeArch = 0 →
      native_build s a e =
        ([.shBootstrap, .shConfigure, .makeInclude, .makeArch], none)) := by
  subst hs
  cases a with
  | false => simp [is_building_documentation] at ha
  | true =>
    refine ⟨?_, ?_, ?_, ?_, ?_⟩ <;>
      (intros) <;>
      simp_all [native_build, bootstrap, configure, make,
        is_building_documentation]

/-- Witness for C5: a concrete run where configure fails aborts right
after configure with ConfigureFailed. -/
theorem native_build_sequencing_witness :
    native_build false true
        (fun p => match p with | .shConfigure => 2 | _ => 0) =
      ([.shBootstrap, .shConfigure], some .configureFailed) :=
  ((native_build_sequencing false true
      (fun p => match p with | .shConfigure => 2 | _ => 0)
      rfl rfl).2.1) rfl (by decide)

/-- C6: a resolved microcontroller name outside the static define table
makes binding generation fail with UnsupportedMcu before any builder
output is produced, while a recognized name such as atmega328 contributes
its preprocessor define to the generator configuration. -/
theorem unsupported_mcu_fatal (fs : FS) (libc : LibPath) (n : String)
    (hn : define_lookup n = none) :
    generate_bindings fs (some n) libc = .error (.unsupportedMcu n) ∧
    mcu_define_name (some "atmega328") = .ok (some "__AVR_ATmega328__") ∧
    (∀ cfg, generate_bindings fs (some "atmega328") libc = .ok cfg →
      "-D__AVR_ATmega328__" ∈ cfg.clangArgs) := by
  have hdef : mcu_define_name (some "atmega328") =
      .ok (some "__AVR_ATmega328__") := rfl
  refine ⟨?_, hdef, ?_⟩
  · simp [generate_bindings, mcu_define_name, hn]
  · intro cfg hcfg
    simp only [generate_bindings, hdef] at hcfg
    cases hb : base_headers fs (some "atmega328") libc with
    | error err => rw [hb] at hcfg; simp at hcfg
    | ok hs =>
      rw [hb] at hcfg
      simp only [Except.ok.injEq] at hcfg
      rw [← hcfg]
      show "-D__AVR_ATmega328__" ∈
        ["-Iavr-libc/include", "-ffreestanding"] ++ ["-D" ++ "__AVR_ATmega328__"]
      decide

/-- Witness for C6: the unknown name atmega9999 is fatal, while atmega328
yields the define __AVR_ATmega328__. -/
theorem unsupported_mcu_fatal_witness :
    define_lookup "atmega9999" = none ∧
    (generate_bindings emptyFS (some "atmega9999") [] =
        .error (.unsupportedMcu "atmega9999") ∧
      mcu_define_name (some "atmega328") = .ok (some "__AVR_ATmega328__") ∧
      (∀ cfg, generate_bindings emptyFS (some "atmega328") [] = .ok cfg →
        "-D__AVR_ATmega328__" ∈ cfg.clangArgs)) :=
  ⟨by decide, unsupported_mcu_fatal emptyFS [] "atmega9999" (by decide)⟩

/-- C3: any header whose file stem begins with the prefix io is excluded
by the eligibility filter, whatever the microcontroller context. -/
theorem io_header_excluded (mcu : Option String) (path libc : LibPath)
    (stem : String) (hstem : path_file_stem path = some stem)
    (hio : starts_with stem "io" = true) :
    is_header_blacklisted mcu path libc = true := by
  simp [is_header_blacklisted, hstem, hio]

/-- Witness for C3: io85.h is excluded even with a resolved
microcontroller. -/
theorem io_header_excluded_witness :
    path_file_stem ["r", "include", "io85.h"] = some "io85" ∧
    starts_with "io85" "io" = true ∧
    is_header_blacklisted (some "atmega328") ["r", "include", "io85.h"] ["r"]
      = true :=
  ⟨by decide, by decide,
    io_header_excluded (some "atmega328") ["r", "include", "io85.h"] ["r"]
      "io85" (by decide) (by decide)⟩

/-- C4: every header of the static deny list, addressed by its
library-relative path under the include root, is excluded by the
eligibility filter, whatever the microcontroller context. -/
theorem deny_list_excluded (mcu : Option String) (libc : LibPath) (s : String)
    (hs : s ∈ HEADER_BLACKLIST) :
    is_header_blacklisted mcu (pjoin (libc ++ ["include"]) s) libc = true := by
  have h := is_header_in_list_of_mem libc s HEADER_BLACKLIST hs
  cases hst : path_file_stem (pjoin (libc ++ ["include"]) s) with
  | none => simp [is_header_blacklisted, hst, h]
  | some stem =>
    by_cases hio : starts_with stem "io" = true <;>
      simp [is_header_blacklisted, hst, h, hio]

/-- Witness for C4: util/delay.h is excluded even with a resolved
microcontroller. -/
theorem deny_list_excluded_witness :
    "util/delay.h" ∈ HEADER_BLACKLIST ∧
    is_header_blacklisted (some "atmega328")
      (pjoin (["r"] ++ ["include"]) "util/delay.h") ["r"] = true :=
  ⟨by decide,
    deny_list_excluded (some "atmega328") ["r"] "util/delay.h" (by decide)⟩

/-- C2: every header of the device-specific list, addressed by its
library-relative path under the include root, is excluded when no
microcontroller is resolved and eligible when one is resolved. -/
theorem device_specific_gating (libc : LibPath) (m s : String)
    (hs : s ∈ DEVICE_SPECIFIC_HEADERS) :
    is_header_blacklisted none (pjoin (libc ++ ["include"]) s) libc = true ∧
    is_header_blacklisted (some m) (pjoin (libc ++ ["include"]) s) libc
      = false := by
  fin_cases hs
  · exact device_specific_case libc m _ ["avr", "boot.h"] "boot"
      (by decide) (by decide) (by decide) (by decide) (by decide) (by decide)
  · exact device_specific_case libc m _ ["avr", "sleep.h"] "sleep"
      (by decide) (by decide) (by decide) (by decide) (by decide) (by decide)
  · exact device_specific_case libc m _ ["util", "crc16.h"] "crc16"
      (by decide) (by decide) (by decide) (by decide) (by decide) (by decide)

/-- Witness for C2: avr/sleep.h is excluded on a host/doc build (no
microcontroller) and eligible when atmega328 is resolved. -/
theorem device_specific_gating_witness :
    "avr/sleep.h" ∈ DEVICE_SPECIFIC_HEADERS ∧
    (is_header_blacklisted none
        (pjoin (["r"] ++ ["include"]) "avr/sleep.h") ["r"] = true ∧
      is_header_blacklisted (some "atmega328")
        (pjoin (["r"] ++ ["include"]) "avr/sleep.h") ["r"] = false) :=
  ⟨by decide,
    device_specific_gating ["r"] "atmega328" "avr/sleep.h" (by decide)⟩

/-- C8: the filter is the disjunction of its three exclusion rules, so
its outcome is invariant under any permutation of the order in which the
rules are evaluated, and a header excluded by any single rule is excluded
by the filter (no rule can re-admit it). -/
theorem rules_order_invariant (mcu : Option String) (path libc : LibPath)
    (l : List Bool) (hp : l.Perm (filter_rules mcu path libc)) :
    l.any id = is_header_blacklisted mcu path libc ∧
    (∀ b ∈ l, b = true → is_header_blacklisted mcu path libc = true) := by
  have h1 : l.any id = is_header_blacklisted mcu path libc := by
    rw [any_id_eq_of_perm hp, blacklisted_eq_any_rules]
  refine ⟨h1, fun b hb htrue => ?_⟩
  rw [← h1]
  exact List.any_eq_true.mpr ⟨b, hb, htrue⟩

/-- Witness for C8: a reversed rule order gives the same outcome on
util/delay.h with no microcontroller. -/
theorem rules_order_invariant_witness :
    ((filter_rules none (["r", "include", "util", "delay.h"]) ["r"]).reverse.any
        id =
      is_header_blacklisted none (["r", "include", "util", "delay.h"]) ["r"]) ∧
    (∀ b ∈ (filter_rules none (["r", "include", "util", "delay.h"]) ["r"]).reverse,
      b = true →
        is_header_blacklisted none (["r", "include", "util", "delay.h"]) ["r"]
          = true) :=
  rules_order_invariant none (["r", "include", "util", "delay.h"]) ["r"]
    (filter_rules none (["r", "include", "util", "delay.h"]) ["r"]).reverse
    (List.reverse_perm _)

/-- C10: list membership is decided by equality of the full path against
the include root joined with the listed entry; a file named delay.h
directly in the include root matches neither list (only util/delay.h is
listed) and is not excluded at all. -/
theorem list_match_is_full_path (libc : LibPath) (mcu : Option String) :
    (∀ list path, is_header_in_list path libc list = true ↔
      ∃ s ∈ list, path = pjoin (libc ++ ["include"]) s) ∧
    is_header_in_list (libc ++ ["include"] ++ ["delay.h"]) libc
      HEADER_BLACKLIST = false ∧
    is_header_in_list (libc ++ ["include"] ++ ["delay.h"]) libc
      DEVICE_SPECIFIC_HEADERS = false ∧
    is_header_blacklisted mcu (libc ++ ["include"] ++ ["delay.h"]) libc
      = false := by
  have h1 := is_header_in_list_false libc ["delay.h"] HEADER_BLACKLIST
    (by decide)
  have h2 := is_header_in_list_false libc ["delay.h"] DEVICE_SPECIFIC_HEADERS
    (by decide)
  refine ⟨fun list path => is_header_in_list_true_iff path libc list,
    h1, h2, ?_⟩
  have hstem : path_file_stem (libc ++ ["include"] ++ ["delay.h"])
      = some "delay" := by
    rw [path_file_stem_append _ _ (by decide)]
    decide
  simp only [List.append_assoc, List.cons_append, List.nil_append]
    at h1 h2 hstem ⊢
  simp [is_header_blacklisted, hstem, h1, h2, is_header_device_specific,
    show starts_with "delay" "io" = false from by decide]

/-- C7: the header collector equals its specification: it visits exactly
include_root, include_root/util, include_root/sys, include_root/avr in
that fixed order, keeping the direct file entries with extension "h" that
pass the eligibility filter in directory-then-entry order, and it
succeeds exactly when all four directories are readable (a missing
directory aborts the run). -/
theorem collector_fixed_dirs (fs : FS) (mcu : Option String)
    (libc : LibPath) :
    base_headers fs mcu libc = collect_spec fs mcu libc ∧
    exceptOk (base_headers fs mcu libc)
      = (collector_dirs libc).all (fun d => (fs.readDir d).isSome) := by
  have h1 := headers_inside_eq fs mcu (libc ++ ["include"]) libc
  have h2 := headers_inside_eq fs mcu (libc ++ ["include", "util"]) libc
  have h3 := headers_inside_eq fs mcu (libc ++ ["include", "sys"]) libc
  have h4 := headers_inside_eq fs mcu (libc ++ ["include", "avr"]) libc
  cases r1 : fs.readDir (libc ++ ["include"]) <;>
    cases r2 : fs.readDir (libc ++ ["include", "util"]) <;>
    cases r3 : fs.readDir (libc ++ ["include", "sys"]) <;>
    cases r4 : fs.readDir (libc ++ ["include", "avr"]) <;>
    rw [r1] at h1 <;> rw [r2] at h2 <;> rw [r3] at h3 <;> rw [r4] at h4 <;>
    simp [base_headers, collect_spec, collector_dirs, spec_visit,
      h1, h2, h3, h4, r1, r2, r3, r4, exceptOk, List.append_assoc]

/-- Witness for C10 at a concrete include root. -/
theorem list_match_is_full_path_witness :
    (∀ list path, is_header_in_list path ["r"] list = true ↔
      ∃ s ∈ list, path = pjoin (["r"] ++ ["include"]) s) ∧
    is_header_in_list (["r"] ++ ["include"] ++ ["delay.h"]) ["r"]
      HEADER_BLACKLIST = false ∧
    is_header_in_list (["r"] ++ ["include"] ++ ["delay.h"]) ["r"]
      DEVICE_SPECIFIC_HEADERS = false ∧
    is_header_blacklisted none (["r"] ++ ["include"] ++ ["delay.h"]) ["r"]
      = false :=
  list_match_is_full_path ["r"] none

end AvrLibc
